import Mathlib

/-!
Verification of the AutoML / predictor request-construction layer of the
sagemaker-python-sdk sources (src/sagemaker/automl/automl.py and
src/sagemaker/predictor.py), shallowly embedded in Lean.

Python dictionaries are modelled as association lists over `String` keys;
Python `None` is `Option.none`; code that raises becomes `Except String`.
Python truthiness (`if x:`) on optional strings / dicts / ints is modelled
explicitly: `None`, the empty string, the empty dict and `0` are falsy.
-/

/-- Truthiness of a Python optional string: `None` and `""` are falsy. -/
def strTruthy : Option String → Bool
  | none => false
  | some s => s != ""

/-- A Python dict with string keys and string values (association list). -/
def PyDict : Type := List (String × String)

instance : DecidableEq PyDict := by
  unfold PyDict
  infer_instance

/-- Truthiness of a Python optional dict: `None` and the empty dict are falsy. -/
def dictTruthy : Option PyDict → Bool
  | none => false
  | some d => !d.isEmpty

/-- Truthiness of a Python optional int: `None` and `0` are falsy. -/
def natTruthy : Option Nat → Bool
  | none => false
  | some n => n != 0

/-- Whether an `Except` computation returned normally (did not raise). -/
def exceptIsOk {ε α : Type} : Except ε α → Bool
  | .ok _ => true
  | .error _ => false

/-- A server-reported AutoML job description, as consumed by the client:
the `AutoMLJobName` and `BestCandidate` fields that
`AutoML.best_candidate` reads, plus the remaining reported fields. -/
structure Desc where
  autoMLJobName : String
  bestCandidate : PyDict
  rest : PyDict
  deriving DecidableEq

/-- The mutable state of an `AutoML` object: the fields set by
`AutoML.__init__` (automl.py lines 49-69). `max_candidate` keeps the
source's (singular) attribute name. -/
structure AutoMLState where
  role : String
  output_kms_key : Option String
  output_path : Option String
  base_job_name : Option String
  compression_type : Option String
  volume_kms_key : Option String
  encrypt_inter_container_traffic : Bool
  vpc_config : Option PyDict
  problem_type : Option String
  max_candidate : Nat
  max_runtime_per_training_job_in_seconds : Option Nat
  total_job_runtime_in_seconds : Option Nat
  target_attribute_name : String
  job_objective : Option PyDict
  generate_candidate_definitions_only : Bool
  tags : Option PyDict
  current_job_name : Option String
  auto_ml_job_desc : Option Desc
  best_candidate : Option PyDict
  deriving DecidableEq

/-- The constructor arguments of `AutoML.__init__` (automl.py lines 29-48). -/
structure AutoMLArgs where
  role : String
  target_attribute_name : String
  output_kms_key : Option String
  output_path : Option String
  base_job_name : Option String
  compression_type : Option String
  volume_kms_key : Option String
  encrypt_inter_container_traffic : Bool
  vpc_config : Option PyDict
  problem_type : Option String
  max_candidates : Nat
  max_runtime_per_training_job_in_seconds : Option Nat
  total_job_runtime_in_seconds : Option Nat
  job_objective : Option PyDict
  generate_candidate_definitions_only : Bool
  tags : Option PyDict

/-- `AutoML._check_problem_type_and_job_objective` (automl.py lines 269-286):
raises ValueError when `not (problem_type and job_objective) and
(problem_type or job_objective)` — Python truthiness on both operands. -/
def check_problem_type_and_job_objective (problem_type : Option String)
    (job_objective : Option PyDict) : Except String Unit :=
  if !(strTruthy problem_type && dictTruthy job_objective)
      && (strTruthy problem_type || dictTruthy job_objective) then
    .error ("One of problem type and objective metric provided. " ++
      "Either both of them should be provided or none of them should be provided.")
  else
    .ok ()

/-- `AutoML.__init__` (automl.py lines 29-71): sets every attribute, then runs
`_check_problem_type_and_job_objective`; construction fails exactly when that
check raises. -/
def AutoML_init (a : AutoMLArgs) : Except String AutoMLState :=
  let s : AutoMLState :=
    { role := a.role
      output_kms_key := a.output_kms_key
      output_path := a.output_path
      base_job_name := a.base_job_name
      compression_type := a.compression_type
      volume_kms_key := a.volume_kms_key
      encrypt_inter_container_traffic := a.encrypt_inter_container_traffic
      vpc_config := a.vpc_config
      problem_type := a.problem_type
      max_candidate := a.max_candidates
      max_runtime_per_training_job_in_seconds := a.max_runtime_per_training_job_in_seconds
      total_job_runtime_in_seconds := a.total_job_runtime_in_seconds
      target_attribute_name := a.target_attribute_name
      job_objective := a.job_objective
      generate_candidate_definitions_only := a.generate_candidate_definitions_only
      tags := a.tags
      current_job_name := none
      auto_ml_job_desc := none
      best_candidate := none }
  match check_problem_type_and_job_objective s.problem_type s.job_objective with
  | .error e => .error e
  | .ok _ => .ok s

/-- A convenient `AutoMLArgs` with the source's defaults, varying only the
role, target attribute name, problem type and job objective. -/
def mkAutoMLArgs (role tan : String) (pt : Option String) (jo : Option PyDict) : AutoMLArgs :=
  { role := role
    target_attribute_name := tan
    output_kms_key := none
    output_path := none
    base_job_name := none
    compression_type := none
    volume_kms_key := none
    encrypt_inter_container_traffic := false
    vpc_config := none
    problem_type := pt
    max_candidates := 500
    max_runtime_per_training_job_in_seconds := none
    total_job_runtime_in_seconds := none
    job_objective := jo
    generate_candidate_definitions_only := false
    tags := none }

/-- `AutoMLJob._prepare_auto_ml_stop_condition` (automl.py lines 563-588):
starts from the one-entry dict MaxCandidates and appends each runtime limit
exactly when it `is not None`. -/
def prepare_auto_ml_stop_condition (max_candidates : Nat)
    (max_runtime_per_training_job_in_seconds : Option Nat)
    (total_job_runtime_in_seconds : Option Nat) : List (String × Nat) :=
  let stopping_condition := [("MaxCandidates", max_candidates)]
  let stopping_condition :=
    match max_runtime_per_training_job_in_seconds with
    | some v => stopping_condition ++ [("MaxRuntimePerTrainingJobInSeconds", v)]
    | none => stopping_condition
  match total_job_runtime_in_seconds with
  | some v => stopping_condition ++ [("MaxAutoMLJobRuntimeInSeconds", v)]
  | none => stopping_condition

/-- The describe-cache consultation inside `AutoML.best_candidate`
(automl.py lines 132-135): fetch when no description is cached or when the
cached description's `AutoMLJobName` differs from the requested name (a job
name string is never equal to a Python `None` request). Returns the
description used together with the list of remote describe calls issued. -/
def descCacheLookup (oracle : Option String → Desc) (cache : Option Desc)
    (jn : Option String) : Desc × List (Option String) :=
  match cache with
  | none => (oracle jn, [jn])
  | some d0 =>
    match jn with
    | some j => if d0.autoMLJobName == j then (d0, []) else (oracle jn, [jn])
    | none => (oracle jn, [jn])

/-- `AutoML.best_candidate` (automl.py lines 118-138). If a best candidate is
cached (truthy), it is returned at once — before the requested job name is
even resolved. Otherwise the job name defaults to `current_job_name`, the
description cache is consulted (`descCacheLookup`), and both caches are
updated. The third component lists the remote describe calls issued. -/
def AutoML_best_candidate (oracle : Option String → Desc) (s : AutoMLState)
    (job_name : Option String) : PyDict × AutoMLState × List (Option String) :=
  if dictTruthy s.best_candidate then
    (s.best_candidate.getD [], s, [])
  else
    let jn : Option String :=
      match job_name with
      | some j => some j
      | none => s.current_job_name
    let fetched := descCacheLookup oracle s.auto_ml_job_desc jn
    let d := fetched.1
    (d.bestCandidate,
     { s with auto_ml_job_desc := some d, best_candidate := some d.bestCandidate },
     fetched.2)

/-- `AutoML.describe_auto_ml_job` (automl.py lines 103-116): resolves the job
name (defaulting to `current_job_name`), always issues a remote describe
call, stores the response in `_auto_ml_job_desc` and returns it. The third
component lists the remote describe calls issued. -/
def describe_auto_ml_job (oracle : Option String → Desc) (s : AutoMLState)
    (job_name : Option String) : Desc × AutoMLState × List (Option String) :=
  let jn : Option String :=
    match job_name with
    | some j => some j
    | none => s.current_job_name
  let d := oracle jn
  (d, { s with auto_ml_job_desc := some d }, [jn])

/-- `AutoMLJob.describe` (automl.py lines 590-592): a single remote describe
call on the handle's job name; no cache is consulted. -/
def AutoMLJob_describe (oracle : Option String → Desc) (job_name : String) :
    Desc × List (Option String) :=
  (oracle (some job_name), [some job_name])

/-- A remote describe oracle whose response names match the requested job
name, with a fixed best candidate. -/
def oracleS : Option String → Desc :=
  fun jn => { autoMLJobName := jn.getD "", bestCandidate := [("CandidateName", "best")], rest := [] }

/-- An `AutoML` object state right after submitting job-A: no cached
description, no cached best candidate. -/
def sampleState : AutoMLState :=
  { role := "role"
    output_kms_key := none
    output_path := none
    base_job_name := none
    compression_type := none
    volume_kms_key := none
    encrypt_inter_container_traffic := false
    vpc_config := none
    problem_type := none
    max_candidate := 500
    max_runtime_per_training_job_in_seconds := none
    total_job_runtime_in_seconds := none
    target_attribute_name := "y"
    job_objective := none
    generate_candidate_definitions_only := false
    tags := none
    current_job_name := some "job-A"
    auto_ml_job_desc := none
    best_candidate := none }

/-- The best candidate reported for job-A. -/
def candA : PyDict := [("CandidateName", "A-best")]

/-- The cached description of job-A. -/
def descA : Desc := { autoMLJobName := "job-A", bestCandidate := candA, rest := [] }

/-- The state after `best_candidate` was computed for job-A: description and
best candidate cached for job-A. -/
def cachedStateA : AutoMLState :=
  { sampleState with auto_ml_job_desc := some descA, best_candidate := some candA }

/-- One input channel of the AutoML InputDataConfig: the `DataSource` S3
location, the `TargetAttributeName` value (`none` models Python `None`),
and the optional `CompressionType` entry. -/
structure Channel where
  dataSource : String
  targetAttributeName : Option String
  compressionType : Option String
  deriving DecidableEq

/-- A value that is either a single string or a list of strings, as accepted
by `AutoMLInput.__init__` for its `inputs` parameter. -/
inductive StrOrList
  | str (s : String)
  | lst (l : List String)
  deriving DecidableEq

/-- The parameters held by an `AutoMLInput` object (automl.py lines 390-406). -/
structure AutoMLInputData where
  inputs : StrOrList
  target_attribute_name : Option String
  compression : Option String
  deriving DecidableEq

/-- Normalization of a single string to a one-element list, as performed at
the start of `AutoMLInput.to_request_dict` (automl.py lines 412-413). -/
def strOrListToList : StrOrList → List String
  | .str s => [s]
  | .lst l => l

/-- `AutoMLInput.to_request_dict` (automl.py lines 408-422): one entry per
location, each carrying the object's target attribute name and, when not
None, its compression type. No validation is performed. -/
def AutoMLInput_to_request_dict (a : AutoMLInputData) : List Channel :=
  (strOrListToList a.inputs).map fun entry =>
    { dataSource := entry
      targetAttributeName := a.target_attribute_name
      compressionType := a.compression }

/-- The values `AutoMLJob._format_inputs_to_input_config` accepts for
`inputs`: an `AutoMLInput` object, a single string, or a list of strings
(automl.py lines 534-552). -/
inductive AMLInputs
  | aml (a : AutoMLInputData)
  | str (s : String)
  | lst (l : List String)
  deriving DecidableEq

/-- One element of the `channels` list built by
`_format_inputs_to_input_config`: normally a channel dict, but on the
`AutoMLInput` branch the code appends the whole list returned by
`to_request_dict` as a single element (automl.py line 535). -/
inductive ChanEntry
  | chan (c : Channel)
  | chanList (l : List Channel)
  deriving DecidableEq

/-- Modelled from the spec: `_Job._format_string_uri_input` lives in
sagemaker/job.py, which is not under src/. Per the spec, the Request
Builder maps each location into a channel carrying the data source and the
target attribute name (with the compression type when given) — the same
shape the in-src `AutoMLInput.to_request_dict` builds. -/
def formatStringUriInput (uri : String) (compression : Option String)
    (target_attribute_name : Option String) : Channel :=
  { dataSource := uri
    targetAttributeName := target_attribute_name
    compressionType := compression }

/-- The validation loop of `_format_inputs_to_input_config` (automl.py lines
557-559): raises ValueError on a channel whose `TargetAttributeName` is
None. On the `AutoMLInput` branch the appended element is a list, and
Python's `list["TargetAttributeName"]` raises a TypeError instead. -/
def checkChannels : List ChanEntry → Except String Unit
  | [] => .ok ()
  | ChanEntry.chan c :: rest =>
    if c.targetAttributeName.isNone then .error "TargetAttributeName cannot be None."
    else checkChannels rest
  | ChanEntry.chanList _ :: _ =>
    .error "TypeError: list indices must be integers or slices, not str"

/-- `AutoMLJob._format_inputs_to_input_config` (automl.py lines 514-561),
parameterized by the channel formatter `fmt` (`_Job._format_string_uri_input`).
Returns None for None inputs; otherwise builds one channel per location
(a single string is one channel) and runs the validation loop. -/
def format_inputs_to_input_config (fmt : String → Option String → Option String → Channel)
    (inputs : Option AMLInputs) (compression : Option String)
    (target_attribute_name : Option String) : Except String (Option (List ChanEntry)) :=
  match inputs with
  | none => .ok none
  | some ins =>
    let channels : List ChanEntry :=
      match ins with
      | .aml a => [ChanEntry.chanList (AutoMLInput_to_request_dict a)]
      | .str s => [ChanEntry.chan (fmt s compression target_attribute_name)]
      | .lst l => l.map fun e => ChanEntry.chan (fmt e compression target_attribute_name)
    match checkChannels channels with
    | .error e => .error e
    | .ok _ => .ok (some channels)

/-- `RealTimePredictor.delete_model`'s loop (predictor.py lines 170-175):
attempts a delete for every model name, recording the names whose delete
raised. `deleteFails m = true` models the remote delete call raising for
model `m`. Returns the attempted names and the failed names, in order. -/
def deleteModelLoop (deleteFails : String → Bool) : List String → List String × List String
  | [] => ([], [])
  | m :: rest =>
    let later := deleteModelLoop deleteFails rest
    (m :: later.1, (if deleteFails m then [m] else []) ++ later.2)

/-- The aggregate error message of `RealTimePredictor.delete_model`
(predictor.py lines 178-181). -/
def deleteFailMsg (failed_models : List String) : String :=
  "One or more models cannot be deleted, please retry. \nFailed models: "
    ++ String.intercalate ", " failed_models

/-- `RealTimePredictor.delete_model` (predictor.py lines 166-181): deletes
every model name, then raises one aggregate error naming the failures, if
any. Returns the attempted names and the outcome. -/
def delete_model (deleteFails : String → Bool) (model_names : List String) :
    List String × Except String Unit :=
  let r := deleteModelLoop deleteFails model_names
  (r.1, if r.2.isEmpty then .ok () else .error (deleteFailMsg r.2))

/-- The optional filter arguments of `AutoML.list_candidates` (automl.py
lines 140-149). -/
structure ListCandidatesParams where
  status_equals : Option String
  candidate_name : Option String
  candidate_arn : Option String
  sort_order : Option String
  sort_by : Option String
  max_results : Option Nat
  deriving DecidableEq

/-- A request-argument value: a string, an integer, or Python None. -/
inductive ArgVal
  | str (s : String)
  | int (n : Nat)
  | noneVal
  deriving DecidableEq

/-- An optional string as a request-argument value. -/
def optStrArg : Option String → ArgVal
  | some s => ArgVal.str s
  | none => ArgVal.noneVal

/-- The argument dict built by `AutoML.list_candidates` (automl.py lines
170-188): job_name defaults to `current_job_name`; each optional filter is
added exactly when truthy (`if status_equals:` and so on), so Python-falsy
values are dropped. -/
def list_candidates_args (job_name current_job_name : Option String)
    (p : ListCandidatesParams) : List (String × ArgVal) :=
  let jn : Option String :=
    match job_name with
    | some j => some j
    | none => current_job_name
  let args := [("job_name", optStrArg jn)]
  let args := if strTruthy p.status_equals then
      args ++ [("status_equals", optStrArg p.status_equals)] else args
  let args := if strTruthy p.candidate_name then
      args ++ [("candidate_name", optStrArg p.candidate_name)] else args
  let args := if strTruthy p.candidate_arn then
      args ++ [("candidate_arn", optStrArg p.candidate_arn)] else args
  let args := if strTruthy p.sort_order then
      args ++ [("sort_order", optStrArg p.sort_order)] else args
  let args := if strTruthy p.sort_by then
      args ++ [("sort_by", optStrArg p.sort_by)] else args
  if natTruthy p.max_results then
    args ++ [("max_results", ArgVal.int (p.max_results.getD 0))] else args

/-- The content-type resolution of `RealTimePredictor.__init__` (predictor.py
line 81): `content_type or getattr(serializer, "content_type", None)` — a
falsy explicit content type is replaced by the serializer's. -/
def predictor_content_type (content_type serializer_content_type : Option String) :
    Option String :=
  if strTruthy content_type then content_type else serializer_content_type

/-- Python dict assignment on an association list: overwrite in place when
the key exists, append otherwise. -/
def dictSet (args : List (String × ArgVal)) (k : String) (v : ArgVal) :
    List (String × ArgVal) :=
  if (args.lookup k).isNone then args ++ [(k, v)]
  else args.map fun kv => if kv.1 == k then (k, v) else kv

/-- `RealTimePredictor._create_request_args` (predictor.py lines 123-144):
starts from `initial_args` (falsy → empty dict), adds EndpointName when the
key is absent, adds ContentType / Accept only when the stored value is
truthy and the key absent, then stores the body (the serializer's output is
modelled as the given body value). -/
def create_request_args (content_type accept : Option String) (endpoint : String)
    (initial_args : Option (List (String × ArgVal))) (body : ArgVal) :
    List (String × ArgVal) :=
  let args := initial_args.getD []
  let args := if (args.lookup "EndpointName").isNone then
      dictSet args "EndpointName" (ArgVal.str endpoint) else args
  let args := if strTruthy content_type && (args.lookup "ContentType").isNone then
      dictSet args "ContentType" (optStrArg content_type) else args
  let args := if strTruthy accept && (args.lookup "Accept").isNone then
      dictSet args "Accept" (optStrArg accept) else args
  dictSet args "Body" body

/-- The ValueError message of the logs/wait check in `AutoML.fit` (automl.py
lines 86-90), with the source's line break and indentation collapsed to one
space. -/
def logsWaitError : String :=
  "Logs can only be shown if wait is set to True. Please either set wait to True or set logs to False."

/-- The observable remote effects of `AutoML.fit`. -/
inductive FitEffect
  | uploadData (local_path : String)
  | createAutoMLJob (job_name : Option String)
  | waitWithLogs (job_name : Option String)
  | waitWithoutLogs (job_name : Option String)
  deriving DecidableEq

/-- `AutoML._prepare_for_auto_ml_job` (automl.py lines 369-387): sets
`current_job_name` from the argument or from a generated name based on
`base_job_name` (truthy) or the "sagemaker-auto-ml" default, and fills
`output_path` with the default bucket when it `is None`. -/
def prepare_for_auto_ml_job (nameFromBase : String → String) (default_bucket : String)
    (s : AutoMLState) (job_name : Option String) : AutoMLState :=
  let s1 :=
    match job_name with
    | some j => { s with current_job_name := some j }
    | none =>
      let base_name :=
        if strTruthy s.base_job_name then s.base_job_name.getD ""
        else "sagemaker-auto-ml"
      { s with current_job_name := some (nameFromBase base_name) }
  if s1.output_path.isNone then
    { s1 with output_path := some ("s3://" ++ default_bucket ++ "/") }
  else s1

/-- `AutoMLJob.start_new` with the input-config part of
`AutoMLJob._load_config` (automl.py lines 433-512): on the `AutoMLInput`
branch the request dict is used with no validation; otherwise the inputs
pass through `_format_inputs_to_input_config`, which can raise. The other
config pieces (output config, role, stop condition) are total; the remote
CreateAutoMLJob call is recorded as an effect. -/
def AutoMLJob_start_new (fmt : String → Option String → Option String → Channel)
    (s : AutoMLState) (inputs : Option AMLInputs) : Except String (List FitEffect) :=
  match inputs with
  | some (AMLInputs.aml _) => .ok [FitEffect.createAutoMLJob s.current_job_name]
  | other =>
    match format_inputs_to_input_config fmt other s.compression_type
        (some s.target_attribute_name) with
    | .error e => .error e
    | .ok _ => .ok [FitEffect.createAutoMLJob s.current_job_name]

/-- The data-upload step of `AutoML.fit` (automl.py lines 92-96): a string
input that does not start with "s3://" is uploaded and replaced by the
returned S3 uri. -/
def fit_upload_step (upload_data : String → String) (inputs : Option AMLInputs) :
    Option AMLInputs × List FitEffect :=
  match inputs with
  | some (AMLInputs.str str0) =>
    if !(str0.startsWith "s3://") then
      (some (AMLInputs.str (upload_data str0)), [FitEffect.uploadData str0])
    else (some (AMLInputs.str str0), [])
  | other => (other, [])

/-- `AutoML.fit` (automl.py lines 73-101): the logs/wait ValueError comes
first — before the upload, the job-name preparation and the create call —
so an error return carries no new state and no effects. Otherwise the
inputs are uploaded if local, the job is prepared and started, and the call
optionally waits (with or without log tailing). -/
def fit (upload_data : String → String) (nameFromBase : String → String)
    (default_bucket : String) (fmt : String → Option String → Option String → Channel)
    (s : AutoMLState) (inputs : Option AMLInputs) (wait logs : Bool)
    (job_name : Option String) : Except String (AutoMLState × List FitEffect) :=
  if logs && !wait then
    .error logsWaitError
  else
    let up := fit_upload_step upload_data inputs
    let s1 := prepare_for_auto_ml_job nameFromBase default_bucket s job_name
    match AutoMLJob_start_new fmt s1 up.1 with
    | .error e => .error e
    | .ok eff =>
      .ok (s1, up.2 ++ eff ++
        (if wait then
          [if logs then FitEffect.waitWithLogs s1.current_job_name
            else FitEffect.waitWithoutLogs s1.current_job_name]
          else []))

/-- Whether a `fit` outcome is precisely the logs/wait ValueError. -/
def isLogsWaitError : Except String (AutoMLState × List FitEffect) → Bool
  | .error e => e == logsWaitError
  | .ok _ => false

/-- An input value for CSV row serialization
(`_CsvSerializer._serialize_row`): a Python string, a (flattened) numpy
array of integers, a Python list of integers, or a readable buffer. -/
inductive RowData
  | pystr (s : String)
  | ndarr (xs : List Int)
  | pylist (xs : List Int)
  | buffer (contents : String)
  deriving DecidableEq

/-- `_csv_serialize_object` via `csv.writer.writerow` restricted to integer
cells (predictor.py lines 347-356): comma-joined values with the trailing
line terminator stripped. -/
def csvSerializeObject (xs : List Int) : String :=
  String.intercalate "," (xs.map toString)

/-- `_CsvSerializer._serialize_row` (predictor.py lines 308-328): a string is
returned untouched (first branch, before any length check); an array or
list raises ValueError when its length is 0 and is CSV-joined otherwise; a
buffer is read through. -/
def serialize_row : RowData → Except String String
  | .pystr s => .ok s
  | .ndarr xs =>
    if xs.length = 0 then .error "Cannot serialize empty array"
    else .ok (csvSerializeObject xs)
  | .pylist xs =>
    if xs.length = 0 then .error "Cannot serialize empty array"
    else .ok (csvSerializeObject xs)
  | .buffer contents => .ok contents

/-- The bytes `np.save` would emit, abstracted to the serialized payload. -/
structure NpyBytes where
  payload : List Int
  deriving DecidableEq

/-- `_npy_serialize` (predictor.py lines 651-658), abstracted to its payload. -/
def npy_serialize (xs : List Int) : NpyBytes := ⟨xs⟩

/-- An input value for the NPY serializer: a numpy array of integers, a
Python list of integers, a readable buffer holding NPY data, or a scalar. -/
inductive NpyData
  | ndarr (xs : List Int)
  | pylist (xs : List Int)
  | buffer (b : NpyBytes)
  | scalar (n : Int)
  deriving DecidableEq

/-- `_NPYSerializer.__call__` (predictor.py lines 623-648): an empty numpy
array or empty list raises ValueError (message paraphrased without the
source's apostrophe); buffers are read through; anything else goes through
`np.array` and is serialized. -/
def NPYSerializer_call : NpyData → Except String NpyBytes
  | .ndarr xs =>
    if xs.length > 0 then .ok (npy_serialize xs)
    else .error "empty array cannot be serialized"
  | .pylist xs =>
    if xs.length > 0 then .ok (npy_serialize xs)
    else .error "empty array cannot be serialized"
  | .buffer b => .ok b
  | .scalar n => .ok (npy_serialize [n])

-- THEOREMS

/-- Claim C1 counterexample: presence (non-None-ness) does not govern the
validation — Python truthiness does. Supplying the empty string as
problem_type with job_objective absent is a "exactly one supplied" call, yet
construction succeeds; supplying the empty string as problem_type together
with a job_objective is a "both supplied" call, yet construction fails. -/
theorem automl_init_presence_counterexample :
    (some "" : Option String).isSome = true
    ∧ (none : Option PyDict).isSome = false
    ∧ exceptIsOk (AutoML_init (mkAutoMLArgs "role" "y" (some "") none)) = true
    ∧ (some [("MetricName", "F1")] : Option PyDict).isSome = true
    ∧ exceptIsOk
        (AutoML_init (mkAutoMLArgs "role" "y" (some "") (some [("MetricName", "F1")])))
        = false :=
  ⟨rfl, rfl, rfl, rfl, rfl⟩

/-- Claim C1 (amended): AutoML construction fails with the validation error
exactly when one of problem_type and job_objective is truthy (non-None and
nonempty) while the other is falsy; a supplied empty string or empty dict
counts as absent. -/
theorem automl_init_validation (a : AutoMLArgs) :
    exceptIsOk (AutoML_init a)
      = (strTruthy a.problem_type == dictTruthy a.job_objective) := by
  unfold AutoML_init check_problem_type_and_job_objective
  cases hp : strTruthy a.problem_type <;>
    cases hj : dictTruthy a.job_objective <;>
      simp [hp, hj, exceptIsOk]

/-- The describe-cache consultation issues at most one remote call. -/
theorem descCacheLookup_len (oracle : Option String → Desc) (cache : Option Desc)
    (jn : Option String) : ((descCacheLookup oracle cache jn).2).length ≤ 1 := by
  unfold descCacheLookup
  cases cache with
  | none => simp
  | some d0 =>
    cases jn with
    | none => simp
    | some j =>
      dsimp only
      split <;> simp

/-- When the oracle reports back the requested job name, the description
obtained through the cache consultation carries the requested name. -/
theorem descCacheLookup_name (oracle : Option String → Desc) (cache : Option Desc)
    (j : String) (hor : ∀ x : String, (oracle (some x)).autoMLJobName = x) :
    (descCacheLookup oracle cache (some j)).1.autoMLJobName = j := by
  unfold descCacheLookup
  cases cache with
  | none => exact hor j
  | some d0 =>
    dsimp only
    split
    · next h => exact eq_of_beq h
    · exact hor j

/-- A second `best_candidate` call with the same job name issues no remote
fetch, whatever the starting state. -/
theorem best_candidate_second_fetch_free (oracle : Option String → Desc) (s : AutoMLState)
    (j : String) (hor : ∀ x : String, (oracle (some x)).autoMLJobName = x) :
    (AutoML_best_candidate oracle (AutoML_best_candidate oracle s (some j)).2.1 (some j)).2.2
      = [] := by
  cases h : dictTruthy s.best_candidate with
  | true => simp [AutoML_best_candidate, h]
  | false =>
    have hfirst : AutoML_best_candidate oracle s (some j)
        = ((descCacheLookup oracle s.auto_ml_job_desc (some j)).1.bestCandidate,
           { s with
              auto_ml_job_desc := some (descCacheLookup oracle s.auto_ml_job_desc (some j)).1,
              best_candidate :=
                some (descCacheLookup oracle s.auto_ml_job_desc (some j)).1.bestCandidate },
           (descCacheLookup oracle s.auto_ml_job_desc (some j)).2) := by
      simp [AutoML_best_candidate, h]
    rw [hfirst]
    have hname := descCacheLookup_name oracle s.auto_ml_job_desc j hor
    generalize hd : (descCacheLookup oracle s.auto_ml_job_desc (some j)).1 = d at hname ⊢
    cases hbc : d.bestCandidate with
    | nil => simp [AutoML_best_candidate, dictTruthy, hbc, descCacheLookup, hname]
    | cons kv tl => simp [AutoML_best_candidate, dictTruthy, hbc]

/-- Once any nonempty best candidate is cached, `best_candidate` returns it
for any requested job name, leaving the state unchanged and fetching
nothing. -/
theorem best_candidate_cached_hit (oracle : Option String → Desc) (s : AutoMLState)
    (jn2 : Option String) (c : PyDict) (kv : String × String) :
    AutoML_best_candidate oracle { s with best_candidate := some (kv :: c) } jn2
      = (kv :: c, { s with best_candidate := some (kv :: c) }, []) := by
  simp [AutoML_best_candidate, dictTruthy]

/-- Claim C2: the stop-condition builder always emits MaxCandidates mapped to
its argument, emits each runtime key exactly when the corresponding argument
is not None (mapped to that value), emits no other keys, and in particular
with max_candidates = 500 and both limits None yields exactly the dict
mapping MaxCandidates to 500. -/
theorem prepare_auto_ml_stop_condition_spec (mc : Nat) (r t : Option Nat) :
    (prepare_auto_ml_stop_condition mc r t).lookup "MaxCandidates" = some mc
    ∧ (prepare_auto_ml_stop_condition mc r t).lookup "MaxRuntimePerTrainingJobInSeconds" = r
    ∧ (prepare_auto_ml_stop_condition mc r t).lookup "MaxAutoMLJobRuntimeInSeconds" = t
    ∧ (prepare_auto_ml_stop_condition mc r t).map Prod.fst =
        "MaxCandidates" ::
          ((match r with | some _ => ["MaxRuntimePerTrainingJobInSeconds"] | none => []) ++
           (match t with | some _ => ["MaxAutoMLJobRuntimeInSeconds"] | none => []))
    ∧ prepare_auto_ml_stop_condition 500 none none = [("MaxCandidates", 500)] := by
  cases r <;> cases t <;>
    refine ⟨rfl, rfl, rfl, rfl, rfl⟩

/-- Claim C3 counterexample: with a best candidate cached for job-A (the
cached description also names job-A), asking for job-B returns job-A's
cached candidate with the state unchanged and no remote fetch — the code
does not force a fresh fetch for job-B once any best candidate is cached. -/
theorem best_candidate_stale_counterexample :
    cachedStateA.auto_ml_job_desc = some descA
    ∧ descA.autoMLJobName = "job-A"
    ∧ AutoML_best_candidate oracleS cachedStateA (some "job-B")
        = (candA, cachedStateA, []) :=
  ⟨rfl, rfl, rfl⟩

/-- Claim C3 (amended): calling `best_candidate` twice with the same job name
issues at most one remote fetch (the second call fetches nothing); but once
a nonempty best candidate is cached, a call with any job name — the same or
a different one — returns the cached value with no fetch: the job-name
mismatch check only governs the cached description, and is bypassed by the
best-candidate cache. -/
theorem best_candidate_cache_behavior (oracle : Option String → Desc) (s : AutoMLState)
    (j : String) (jn2 : Option String) (c : PyDict) (kv : String × String)
    (hor : ∀ x : String, (oracle (some x)).autoMLJobName = x) :
    ((AutoML_best_candidate oracle s (some j)).2.2).length ≤ 1
    ∧ (AutoML_best_candidate oracle
        (AutoML_best_candidate oracle s (some j)).2.1 (some j)).2.2 = []
    ∧ AutoML_best_candidate oracle { s with best_candidate := some (kv :: c) } jn2
        = (kv :: c, { s with best_candidate := some (kv :: c) }, []) := by
  refine ⟨?_, best_candidate_second_fetch_free oracle s j hor,
    best_candidate_cached_hit oracle s jn2 c kv⟩
  cases h : dictTruthy s.best_candidate with
  | true => simp [AutoML_best_candidate, h]
  | false =>
    simpa [AutoML_best_candidate, h] using
      descCacheLookup_len oracle s.auto_ml_job_desc (some j)

/-- Claim C3 witness: the cache behavior instantiated at a fresh job-A state,
a well-behaved oracle, a second request for job-B, and the nonempty cached
candidate of job-A. -/
theorem best_candidate_cache_behavior_witness :
    ((AutoML_best_candidate oracleS sampleState (some "job-A")).2.2).length ≤ 1
    ∧ (AutoML_best_candidate oracleS
        (AutoML_best_candidate oracleS sampleState (some "job-A")).2.1 (some "job-A")).2.2 = []
    ∧ AutoML_best_candidate oracleS
        { sampleState with best_candidate := some (("CandidateName", "A-best") :: []) }
        (some "job-B")
        = (("CandidateName", "A-best") :: [],
           { sampleState with best_candidate := some (("CandidateName", "A-best") :: []) },
           []) :=
  best_candidate_cache_behavior oracleS sampleState "job-A" (some "job-B") []
    ("CandidateName", "A-best") (fun _ => rfl)

/-- Claim C8: `describe_auto_ml_job` issues exactly one remote fetch per
call, its result does not depend on the locally cached description, and two
consecutive calls on the same handle (no intervening remote change: same
oracle) return identical results; `AutoMLJob.describe` likewise issues
exactly one fetch and returns the fresh remote response. -/
theorem describe_always_fetches (oracle : Option String → Desc) (s : AutoMLState)
    (jn : Option String) (d2 : Option Desc) (jname : String) :
    ((describe_auto_ml_job oracle s jn).2.2).length = 1
    ∧ (describe_auto_ml_job oracle { s with auto_ml_job_desc := d2 } jn).1
        = (describe_auto_ml_job oracle s jn).1
    ∧ (describe_auto_ml_job oracle (describe_auto_ml_job oracle s jn).2.1 jn).1
        = (describe_auto_ml_job oracle s jn).1
    ∧ ((AutoMLJob_describe oracle jname).2).length = 1
    ∧ (AutoMLJob_describe oracle jname).1 = oracle (some jname) := by
  refine ⟨rfl, ?_, ?_, rfl, rfl⟩ <;> cases jn <;> rfl

/-- Claim C4: a single location string and the one-element list holding it
produce identical input configs, and on success that config has exactly one
channel entry (the formatted channel); the only failure is the
TargetAttributeName validation. -/
theorem format_inputs_single_vs_list (fmt : String → Option String → Option String → Channel)
    (s : String) (comp tan : Option String) :
    format_inputs_to_input_config fmt (some (AMLInputs.str s)) comp tan
      = format_inputs_to_input_config fmt (some (AMLInputs.lst [s])) comp tan
    ∧ format_inputs_to_input_config fmt (some (AMLInputs.str s)) comp tan
      = (if (fmt s comp tan).targetAttributeName.isNone then
            Except.error "TargetAttributeName cannot be None."
          else Except.ok (some [ChanEntry.chan (fmt s comp tan)])) := by
  constructor
  · rfl
  · simp only [format_inputs_to_input_config, checkChannels]
    cases h : (fmt s comp tan).targetAttributeName.isNone <;> simp [h]

/-- Claim C6 counterexample: an empty (but present) target attribute name is
not rejected — `AutoMLInput.to_request_dict` emits a config whose
TargetAttributeName is the empty string with no error, and the string-input
path of `_format_inputs_to_input_config` forwards the same empty value,
since the validation only checks for None. -/
theorem target_attribute_empty_counterexample :
    AutoMLInput_to_request_dict
        { inputs := StrOrList.str "s3://bucket/data"
          target_attribute_name := some ""
          compression := none }
      = [{ dataSource := "s3://bucket/data", targetAttributeName := some "", compressionType := none }]
    ∧ format_inputs_to_input_config formatStringUriInput
        (some (AMLInputs.str "s3://bucket/data")) none (some "")
      = Except.ok (some [ChanEntry.chan
          { dataSource := "s3://bucket/data", targetAttributeName := some "", compressionType := none }]) :=
  ⟨rfl, rfl⟩

/-- Claim C6 (amended): the string/list path of the input-config builder
raises a validation error only when the channel's target attribute name is
None; any present string — the empty string included — passes validation
and is forwarded in the config, and the `AutoMLInput.to_request_dict` path
forwards the object's target attribute name (None included) into every
channel without any validation. -/
theorem target_attribute_validation (s : String) (comp : Option String) (t : String)
    (a : AutoMLInputData) :
    format_inputs_to_input_config formatStringUriInput (some (AMLInputs.str s)) comp none
      = Except.error "TargetAttributeName cannot be None."
    ∧ format_inputs_to_input_config formatStringUriInput (some (AMLInputs.str s)) comp (some t)
      = Except.ok (some [ChanEntry.chan
          { dataSource := s, targetAttributeName := some t, compressionType := comp }])
    ∧ (AutoMLInput_to_request_dict a).map Channel.targetAttributeName
      = (strOrListToList a.inputs).map (fun _ => a.target_attribute_name) := by
  refine ⟨rfl, rfl, ?_⟩
  simp only [AutoMLInput_to_request_dict, List.map_map]
  rfl

/-- The delete loop attempts every model and collects exactly the failing
names, in order. -/
theorem deleteModelLoop_eq (f : String → Bool) (ms : List String) :
    deleteModelLoop f ms = (ms, ms.filter f) := by
  induction ms with
  | nil => rfl
  | cons m rest ih =>
    cases h : f m <;> simp [deleteModelLoop, ih, h, List.filter_cons]

/-- Claim C5: `delete_model` attempts a delete on every model name even when
some deletions raise, raises a single aggregate error naming exactly the
failed models when at least one fails, and raises nothing when none fail;
in particular for 3 models of which exactly one raises, the other two are
still attempted and the error names exactly that one model. -/
theorem delete_model_aggregates (f : String → Bool) (ms : List String) :
    (delete_model f ms).1 = ms
    ∧ (delete_model f ms).2
      = (if (ms.filter f).isEmpty then Except.ok ()
          else Except.error (deleteFailMsg (ms.filter f)))
    ∧ delete_model (fun m => m == "model-2") ["model-1", "model-2", "model-3"]
      = (["model-1", "model-2", "model-3"],
         Except.error "One or more models cannot be deleted, please retry. \nFailed models: model-2")
    ∧ delete_model (fun _ => false) ["model-1", "model-2", "model-3"]
      = (["model-1", "model-2", "model-3"], Except.ok ()) := by
  refine ⟨?_, ?_, rfl, rfl⟩ <;> simp [delete_model, deleteModelLoop_eq]

/-- Claim C7 counterexample: an explicitly supplied `max_results=0` is
dropped from the `list_candidates` request arguments — only `job_name` is
forwarded — contradicting the claim that an explicit falsy value is never
dropped. -/
theorem falsy_optional_counterexample :
    (⟨none, none, none, none, none, some 0⟩ : ListCandidatesParams).max_results = some 0
    ∧ (list_candidates_args (some "my-auto-ml-job") none
        ⟨none, none, none, none, none, some 0⟩).map Prod.fst = ["job_name"]
    ∧ (list_candidates_args (some "my-auto-ml-job") none
        ⟨none, none, none, none, none, some 0⟩).lookup "max_results" = none :=
  ⟨rfl, rfl, rfl⟩

/-- Claim C7 (amended): optional request parameters are forwarded only when
truthy — an explicitly supplied falsy value (0, empty string) is treated
exactly like an absent one: each `list_candidates` filter key is present
exactly when its value is truthy, an explicit falsy content type is
replaced by the serializer's at construction, and a stored falsy content
type is dropped from the request arguments. -/
theorem falsy_optionals_dropped (jn cur : Option String) (p : ListCandidatesParams)
    (ep : String) (b : ArgVal) (ser : Option String) :
    (list_candidates_args jn cur p).map Prod.fst
      = ["job_name"]
        ++ (if strTruthy p.status_equals then ["status_equals"] else [])
        ++ (if strTruthy p.candidate_name then ["candidate_name"] else [])
        ++ (if strTruthy p.candidate_arn then ["candidate_arn"] else [])
        ++ (if strTruthy p.sort_order then ["sort_order"] else [])
        ++ (if strTruthy p.sort_by then ["sort_by"] else [])
        ++ (if natTruthy p.max_results then ["max_results"] else [])
    ∧ predictor_content_type (some "") ser = ser
    ∧ (create_request_args (some "") none ep none b).map Prod.fst
        = ["EndpointName", "Body"] := by
  refine ⟨?_, rfl, rfl⟩
  unfold list_candidates_args
  cases h1 : strTruthy p.status_equals <;> cases h2 : strTruthy p.candidate_name <;>
    cases h3 : strTruthy p.candidate_arn <;> cases h4 : strTruthy p.sort_order <;>
      cases h5 : strTruthy p.sort_by <;> cases h6 : natTruthy p.max_results <;>
        simp [h1, h2, h3, h4, h5, h6]

/-- The input-config validation loop never raises the logs/wait ValueError. -/
theorem checkChannels_error_ne (l : List ChanEntry) (e : String)
    (h : checkChannels l = .error e) : (e == logsWaitError) = false := by
  induction l with
  | nil => simp [checkChannels] at h
  | cons entry rest ih =>
    cases entry with
    | chan c =>
      by_cases hn : c.targetAttributeName.isNone
      · simp [checkChannels, hn] at h
        subst h
        decide
      · simp [checkChannels, hn] at h
        exact ih h
    | chanList l2 =>
      simp [checkChannels] at h
      subst h
      decide

/-- The input-config builder never raises the logs/wait ValueError. -/
theorem format_inputs_error_ne (fmt : String → Option String → Option String → Channel)
    (inputs : Option AMLInputs) (comp tan : Option String) (e : String)
    (h : format_inputs_to_input_config fmt inputs comp tan = .error e) :
    (e == logsWaitError) = false := by
  unfold format_inputs_to_input_config at h
  cases inputs with
  | none => simp at h
  | some ins =>
    cases ins with
    | aml a =>
      dsimp only at h
      cases hc : checkChannels [ChanEntry.chanList (AutoMLInput_to_request_dict a)] with
      | error e2 =>
        rw [hc] at h
        cases h
        exact checkChannels_error_ne _ _ hc
      | ok u =>
        rw [hc] at h
        cases h
    | str s =>
      dsimp only at h
      cases hc : checkChannels [ChanEntry.chan (fmt s comp tan)] with
      | error e2 =>
        rw [hc] at h
        cases h
        exact checkChannels_error_ne _ _ hc
      | ok u =>
        rw [hc] at h
        cases h
    | lst l =>
      dsimp only at h
      cases hc : checkChannels (l.map fun x => ChanEntry.chan (fmt x comp tan)) with
      | error e2 =>
        rw [hc] at h
        cases h
        exact checkChannels_error_ne _ _ hc
      | ok u =>
        rw [hc] at h
        cases h

/-- `AutoMLJob.start_new` never raises the logs/wait ValueError. -/
theorem start_new_error_ne (fmt : String → Option String → Option String → Channel)
    (s : AutoMLState) (inputs : Option AMLInputs) (e : String)
    (h : AutoMLJob_start_new fmt s inputs = .error e) : (e == logsWaitError) = false := by
  unfold AutoMLJob_start_new at h
  cases inputs with
  | none =>
    dsimp only at h
    cases hf : format_inputs_to_input_config fmt none s.compression_type
        (some s.target_attribute_name) with
    | error e2 =>
      rw [hf] at h
      cases h
      exact format_inputs_error_ne _ _ _ _ _ hf
    | ok c =>
      rw [hf] at h
      cases h
  | some ins =>
    cases ins with
    | aml a => cases h
    | str str0 =>
      dsimp only at h
      cases hf : format_inputs_to_input_config fmt (some (AMLInputs.str str0))
          s.compression_type (some s.target_attribute_name) with
      | error e2 =>
        rw [hf] at h
        cases h
        exact format_inputs_error_ne _ _ _ _ _ hf
      | ok c =>
        rw [hf] at h
        cases h
    | lst l =>
      dsimp only at h
      cases hf : format_inputs_to_input_config fmt (some (AMLInputs.lst l))
          s.compression_type (some s.target_attribute_name) with
      | error e2 =>
        rw [hf] at h
        cases h
        exact format_inputs_error_ne _ _ _ _ _ hf
      | ok c =>
        rw [hf] at h
        cases h

/-- When the logs/wait check passes, `fit` never raises its ValueError. -/
theorem fit_check_passes (upload_data nameFromBase : String → String)
    (default_bucket : String) (fmt : String → Option String → Option String → Channel)
    (s : AutoMLState) (inputs : Option AMLInputs) (job_name : Option String)
    (wait logs : Bool) (hwl : (logs && !wait) = false) :
    isLogsWaitError
      (fit upload_data nameFromBase default_bucket fmt s inputs wait logs job_name)
      = false := by
  unfold fit
  simp only [hwl]
  cases hsn : AutoMLJob_start_new fmt
      (prepare_for_auto_ml_job nameFromBase default_bucket s job_name)
      (fit_upload_step upload_data inputs).1 with
  | error e =>
    simp only [Bool.false_eq_true, if_false, hsn]
    simp only [isLogsWaitError]
    exact start_new_error_ne _ _ _ _ hsn
  | ok eff =>
    simp only [Bool.false_eq_true, if_false, hsn]
    simp only [isLogsWaitError]

/-- Claim C9: calling `fit` with logs=True and wait=False raises the
ValueError before any job name is prepared, any data is uploaded or any
remote create call is issued (the error outcome carries no new state and no
effects); for every call with wait=True or logs=False, this check passes —
`fit` never raises that ValueError. -/
theorem fit_logs_wait_validation (upload_data nameFromBase : String → String)
    (default_bucket : String) (fmt : String → Option String → Option String → Channel)
    (s : AutoMLState) (inputs : Option AMLInputs) (job_name : Option String)
    (wait logs : Bool) :
    fit upload_data nameFromBase default_bucket fmt s inputs false true job_name
      = Except.error logsWaitError
    ∧ isLogsWaitError
        (fit upload_data nameFromBase default_bucket fmt s inputs wait logs job_name)
      = (logs && !wait) := by
  constructor
  · rfl
  · cases wait with
    | false =>
      cases logs with
      | false =>
        exact fit_check_passes upload_data nameFromBase default_bucket fmt s inputs
          job_name false false rfl
      | true => simp [fit, isLogsWaitError]
    | true =>
      cases logs with
      | false =>
        exact fit_check_passes upload_data nameFromBase default_bucket fmt s inputs
          job_name true false rfl
      | true =>
        exact fit_check_passes upload_data nameFromBase default_bucket fmt s inputs
          job_name true true rfl

/-- Claim C10 counterexample: the empty string is a sequence of length 0,
yet the CSV row serializer returns it as a (empty) serialized body instead
of raising — strings are returned before any length check. -/
theorem empty_input_counterexample :
    String.length "" = 0
    ∧ serialize_row (RowData.pystr "") = Except.ok "" :=
  ⟨rfl, rfl⟩

/-- Claim C10 (amended): the CSV row serializer raises ValueError on empty
non-string sequences (empty numpy array, empty list) but returns an empty
string unchanged, and the NPY serializer raises ValueError on an empty
numpy array or empty list. -/
theorem empty_input_serialization :
    serialize_row (RowData.ndarr []) = Except.error "Cannot serialize empty array"
    ∧ serialize_row (RowData.pylist []) = Except.error "Cannot serialize empty array"
    ∧ serialize_row (RowData.pystr "") = Except.ok ""
    ∧ NPYSerializer_call (NpyData.ndarr []) = Except.error "empty array cannot be serialized"
    ∧ NPYSerializer_call (NpyData.pylist []) = Except.error "empty array cannot be serialized" :=
  ⟨rfl, rfl, rfl, rfl, rfl⟩
